import Mathlib

/-!
Verification development for the verano cable-machine control client.

The definitions below are a shallow embedding of the repository's
device protocol codec (protocol.js, modes.js), the monitor-sample
parser and GATT transaction queue (device.js), and the workout-state
engine (the useWorkout hook).  JavaScript numbers are modelled as
exact rationals, byte arrays as lists of naturals, wall-clock instants
as naturals (milliseconds), and thrown exceptions as Option.none.
Frames written through DataView are modelled cell-by-cell: an integer
write stores concrete bytes, a float32 write stores the four symbolic
bytes of the little-endian binary32 encoding of the written value.
-/

namespace Verano

/-! Frame cells.  A cell is either a concrete byte or the i-th byte of
the little-endian IEEE-754 binary32 encoding of a rational value. -/

inductive Cell where
  | byte (b : ℕ)
  | f32 (v : ℚ) (i : Fin 4)
deriving DecidableEq, Repr

/-- Fixed-size byte buffer (Uint8Array plus its DataView): a length
and a map from indices to cells. -/
structure CellBuf where
  size : ℕ
  cells : ℕ → Cell

/-- Zero-filled buffer, as allocated by `new Uint8Array(n)`. -/
def newBuf (n : ℕ) : CellBuf := ⟨n, fun _ => .byte 0⟩

/-- Single-cell store (`frame[i] = v`). -/
def bufSet (b : CellBuf) (i : ℕ) (c : Cell) : CellBuf :=
  { b with cells := fun j => if j = i then c else b.cells j }

/-- JavaScript DataView.setUint16 little-endian: the value is reduced
modulo 2^16 and stored as two bytes. -/
def setU16LE (b : CellBuf) (off v : ℕ) : CellBuf :=
  bufSet (bufSet b off (.byte (v % 256))) (off + 1) (.byte (v / 256 % 256))

/-- JavaScript DataView.setInt16 little-endian: two's-complement
reduction modulo 2^16, then two bytes. -/
def setI16LE (b : CellBuf) (off : ℕ) (v : ℤ) : CellBuf :=
  setU16LE b off (v % 65536).toNat

/-- JavaScript DataView.setFloat32 little-endian: four symbolic cells
holding the binary32 encoding of the value. -/
def setF32LE (b : CellBuf) (off : ℕ) (v : ℚ) : CellBuf :=
  bufSet (bufSet (bufSet (bufSet b off (.f32 v 0))
    (off + 1) (.f32 v 1)) (off + 2) (.f32 v 2)) (off + 3) (.f32 v 3)

/-- Block copy (`dst.set(src, off)`). -/
def bufBlit (dst : CellBuf) (src : CellBuf) (off : ℕ) : CellBuf :=
  { dst with cells := fun j =>
      if off ≤ j ∧ j < off + src.size then src.cells (j - off) else dst.cells j }

/-- Contents of the byte range [off, off + len). -/
def readCells (b : CellBuf) (off len : ℕ) : List Cell :=
  (List.range len).map fun i => b.cells (off + i)

/-! Program modes (modes.js). -/

inductive ProgramMode where
  | oldSchool
  | pump
  | tut
  | tutBeast
  | eccentricOnly
deriving DecidableEq, Repr

/-- getModeProfile from modes.js: one of five fixed 32-byte blocks,
built by the same sequence of u16/i16/f32 little-endian writes into a
zero-filled 32-byte buffer. -/
def getModeProfile (mode : ProgramMode) : CellBuf :=
  let buf := newBuf 32
  match mode with
  | .oldSchool =>
    let b := setU16LE buf 0x00 0
    let b := setU16LE b 0x02 20
    let b := setF32LE b 0x04 3
    let b := setU16LE b 0x08 75
    let b := setU16LE b 0x0a 600
    let b := setF32LE b 0x0c 50
    let b := setI16LE b 0x10 (-1300)
    let b := setI16LE b 0x12 (-1200)
    let b := setF32LE b 0x14 100
    let b := setI16LE b 0x18 (-260)
    let b := setI16LE b 0x1a (-110)
    setF32LE b 0x1c 0
  | .pump =>
    let b := setU16LE buf 0x00 50
    let b := setU16LE b 0x02 450
    let b := setF32LE b 0x04 10
    let b := setU16LE b 0x08 500
    let b := setU16LE b 0x0a 600
    let b := setF32LE b 0x0c 50
    let b := setI16LE b 0x10 (-700)
    let b := setI16LE b 0x12 (-550)
    let b := setF32LE b 0x14 1
    let b := setI16LE b 0x18 (-100)
    let b := setI16LE b 0x1a (-50)
    setF32LE b 0x1c 1
  | .tut =>
    let b := setU16LE buf 0x00 250
    let b := setU16LE b 0x02 350
    let b := setF32LE b 0x04 7
    let b := setU16LE b 0x08 450
    let b := setU16LE b 0x0a 600
    let b := setF32LE b 0x0c 50
    let b := setI16LE b 0x10 (-900)
    let b := setI16LE b 0x12 (-700)
    let b := setF32LE b 0x14 70
    let b := setI16LE b 0x18 (-100)
    let b := setI16LE b 0x1a (-50)
    setF32LE b 0x1c 14
  | .tutBeast =>
    let b := setU16LE buf 0x00 150
    let b := setU16LE b 0x02 250
    let b := setF32LE b 0x04 7
    let b := setU16LE b 0x08 350
    let b := setU16LE b 0x0a 450
    let b := setF32LE b 0x0c 50
    let b := setI16LE b 0x10 (-900)
    let b := setI16LE b 0x12 (-700)
    let b := setF32LE b 0x14 70
    let b := setI16LE b 0x18 (-100)
    let b := setI16LE b 0x1a (-50)
    setF32LE b 0x1c 28
  | .eccentricOnly =>
    let b := setU16LE buf 0x00 50
    let b := setU16LE b 0x02 550
    let b := setF32LE b 0x04 50
    let b := setU16LE b 0x08 650
    let b := setU16LE b 0x0a 750
    let b := setF32LE b 0x0c 10
    let b := setI16LE b 0x10 (-900)
    let b := setI16LE b 0x12 (-700)
    let b := setF32LE b 0x14 70
    let b := setI16LE b 0x18 (-100)
    let b := setI16LE b 0x1a (-50)
    setF32LE b 0x1c 20

/-! Program parameters (the fields read by buildProgramParams). -/

structure ProgramParams where
  mode : ProgramMode
  baseMode : ProgramMode
  isJustLift : Bool
  reps : ℕ
  perCableKg : ℚ
  effectiveKg : ℚ
  progressionKg : Option ℚ
deriving DecidableEq, Repr

/-- JavaScript expression `x || 0.0` on a possibly-undefined number:
undefined and 0 are falsy and give 0, every other number passes. -/
def jsOrZero (x : Option ℚ) : ℚ :=
  match x with
  | none => 0
  | some v => if v = 0 then 0 else v

/-- Validation performed by the App before submitting program
parameters: weight in 0..100 kg, reps in 1..100 unless Just Lift,
progression in -3..3 kg. -/
def validProgramParams (p : ProgramParams) : Prop :=
  0 ≤ p.perCableKg ∧ p.perCableKg ≤ 100 ∧
  (p.isJustLift = true ∨ (1 ≤ p.reps ∧ p.reps ≤ 100)) ∧
  (∀ q ∈ p.progressionKg, -3 ≤ q ∧ q ≤ 3)

/-- buildProgramParams from protocol.js: the 96-byte program frame.
Every write mirrors one statement of the source; a plain Uint8Array
store truncates modulo 256. -/
def buildProgramParams (p : ProgramParams) : CellBuf :=
  let f := newBuf 96
  let f := bufSet (bufSet (bufSet (bufSet f 0 (.byte 0x04)) 1 (.byte 0x00)) 2 (.byte 0x00)) 3 (.byte 0x00)
  let f := if p.isJustLift then bufSet f 0x04 (.byte 0xff)
           else bufSet f 0x04 (.byte ((p.reps + 3) % 256))
  let f := bufSet (bufSet (bufSet f 5 (.byte 0x03)) 6 (.byte 0x03)) 7 (.byte 0x00)
  let f := setF32LE f 0x08 5
  let f := setF32LE f 0x0c 5
  let f := setF32LE f 0x1c 5
  let f := bufSet (bufSet (bufSet (bufSet f 0x14 (.byte 0xfa)) 0x15 (.byte 0x00)) 0x16 (.byte 0xfa)) 0x17 (.byte 0x00)
  let f := bufSet (bufSet (bufSet (bufSet f 0x18 (.byte 0xc8)) 0x19 (.byte 0x00)) 0x1a (.byte 0x1e)) 0x1b (.byte 0x00)
  let f := bufSet (bufSet (bufSet (bufSet f 0x24 (.byte 0xfa)) 0x25 (.byte 0x00)) 0x26 (.byte 0xfa)) 0x27 (.byte 0x00)
  let f := bufSet (bufSet (bufSet (bufSet f 0x28 (.byte 0xc8)) 0x29 (.byte 0x00)) 0x2a (.byte 0x1e)) 0x2b (.byte 0x00)
  let f := bufSet (bufSet (bufSet (bufSet f 0x2c (.byte 0xfa)) 0x2d (.byte 0x00)) 0x2e (.byte 0x50)) 0x2f (.byte 0x00)
  let profileMode := if p.isJustLift then p.baseMode else p.mode
  let f := bufBlit f (getModeProfile profileMode) 0x30
  let f := setF32LE f 0x54 p.effectiveKg
  let f := setF32LE f 0x58 p.perCableKg
  setF32LE f 0x5c (jsOrZero p.progressionKg)

/-! Monitor telemetry parser (device.js parseMonitorData). -/

/-- DataView.getUint16 little-endian over a byte list (bytes are
naturals below 256; the reduction keeps the model total). -/
def u16le (data : List ℕ) (off : ℕ) : ℕ :=
  data.getD off 0 % 256 + data.getD (off + 1) 0 % 256 * 256

/-- JavaScript 32-bit signed interpretation of a natural number, as
produced by the `<<` operator: reduce modulo 2^32 and take the
two's-complement value. -/
def toInt32 (n : ℕ) : ℤ :=
  if n % 4294967296 < 2147483648 then ((n % 4294967296 : ℕ) : ℤ)
  else ((n % 4294967296 : ℕ) : ℤ) - 4294967296

structure MonitorSample where
  timestamp : ℕ
  ticks : ℤ
  posA : ℕ
  posB : ℕ
  loadA : ℚ
  loadB : ℚ
  raw : List ℕ
deriving DecidableEq, Repr

/-- Spike-filter state owned by the device object. -/
structure DeviceState where
  lastGoodPosA : ℕ
  lastGoodPosB : ℕ
deriving DecidableEq, Repr

/-- parseMonitorData from device.js.  Buffers shorter than 16 bytes
yield an all-zero sample carrying the raw bytes; otherwise the u16
little-endian fields at offsets 0, 2, 4, 8, 10, 14 are decoded, ticks
is `f0 + (f1 << 16)` with the JavaScript 32-bit signed shift, and
positions above 50000 are replaced by (and do not update) the
per-cable last-good value. -/
def parseMonitorData (now : ℕ) (st : DeviceState) (data : List ℕ) :
    MonitorSample × DeviceState :=
  if data.length < 16 then
    ({ timestamp := now, ticks := 0, posA := 0, posB := 0,
       loadA := 0, loadB := 0, raw := data }, st)
  else
    let f0 := u16le data 0
    let f1 := u16le data 2
    let f2 := u16le data 4
    let f4 := u16le data 8
    let f5 := u16le data 10
    let f7 := u16le data 14
    let ticks : ℤ := (f0 : ℤ) + toInt32 (f1 * 65536)
    let pA := if 50000 < f2 then (st.lastGoodPosA, st.lastGoodPosA) else (f2, f2)
    let pB := if 50000 < f5 then (st.lastGoodPosB, st.lastGoodPosB) else (f5, f5)
    ({ timestamp := now, ticks := ticks, posA := pA.1, posB := pB.1,
       loadA := (f4 : ℚ) / 100, loadB := (f7 : ℚ) / 100, raw := data },
     { lastGoodPosA := pA.2, lastGoodPosB := pB.2 })

/-! GATT transaction queue (device.js queueGattOperation and
processGattQueue).  Operations are identified by a natural number; the
environment decides when the in-flight operation settles and whether
it resolves or rejects.  The busy flag of the source corresponds to
the running slot being occupied. -/

inductive QEvent where
  | submit (id : ℕ)
  | finish (ok : Bool)
deriving DecidableEq, Repr

structure QState where
  pending : List ℕ
  running : Option ℕ
  settled : List (ℕ × Bool)
deriving DecidableEq, Repr

def qInit : QState := ⟨[], none, []⟩

/-- processGattQueue: when no operation is in flight and the queue is
nonempty, shift the head and start executing it. -/
def processGattQueue (s : QState) : QState :=
  match s.running, s.pending with
  | none, id :: rest => { pending := rest, running := some id, settled := s.settled }
  | _, _ => s

/-- One environment event against the queue: queueGattOperation pushes
and pumps; completion of the in-flight operation settles it (resolve
or reject), clears the busy flag, and pumps again from the finally
block. -/
def qStep (s : QState) : QEvent → QState
  | .submit id => processGattQueue { s with pending := s.pending ++ [id] }
  | .finish ok =>
    match s.running with
    | some id =>
        processGattQueue
          { pending := s.pending, running := none, settled := s.settled ++ [(id, ok)] }
    | none => s

def qRun (events : List QEvent) : QState := events.foldl qStep qInit

/-- Identifiers of the operations submitted by a trace, in submission
order. -/
def submittedIds (events : List QEvent) : List ℕ :=
  events.filterMap fun e =>
    match e with
    | .submit id => some id
    | .finish _ => none

/-! Workout-state engine (the useWorkout hook).  React state and refs
become one record; the onAutoStop and onWorkoutComplete callbacks
supplied by the client are modelled as boolean effect outputs. -/

structure PositionRange where
  min : ℕ
  max : ℕ
deriving DecidableEq, Repr

structure RepRanges where
  minRepPosA : Option ℚ
  maxRepPosA : Option ℚ
  minRepPosB : Option ℚ
  maxRepPosB : Option ℚ
  minRepPosARange : Option PositionRange
  maxRepPosARange : Option PositionRange
  minRepPosBRange : Option PositionRange
  maxRepPosBRange : Option PositionRange
deriving DecidableEq, Repr

def emptyRepRanges : RepRanges :=
  ⟨none, none, none, none, none, none, none, none⟩

structure CurrentWorkout where
  mode : String
  weightKg : ℚ
  targetReps : ℕ
  startTime : ℕ
  warmupEndTime : Option ℕ
  endTime : Option ℕ
deriving DecidableEq, Repr

structure LiveStats where
  posA : ℕ
  posB : ℕ
  loadA : ℚ
  loadB : ℚ
  ticks : ℤ
deriving DecidableEq, Repr

structure EngineState where
  currentWorkout : Option CurrentWorkout
  warmupReps : ℕ
  workingReps : ℕ
  warmupTarget : ℕ
  targetReps : ℕ
  isJustLiftMode : Bool
  stopAtTop : Bool
  autoStopProgress : ℚ
  maxPos : ℕ
  liveStats : LiveStats
  repRanges : RepRanges
  topPositionsA : List ℕ
  bottomPositionsA : List ℕ
  topPositionsB : List ℕ
  bottomPositionsB : List ℕ
  lastTopCounter : Option ℕ
  lastRepCounter : Option ℕ
  autoStopStartTime : Option ℕ
  currentSample : Option MonitorSample
deriving DecidableEq, Repr

/-- Initial hook state (useState and useRef initialisers). -/
def initialEngineState : EngineState where
  currentWorkout := none
  warmupReps := 0
  workingReps := 0
  warmupTarget := 3
  targetReps := 0
  isJustLiftMode := false
  stopAtTop := false
  autoStopProgress := 0
  maxPos := 1000
  liveStats := ⟨0, 0, 0, 0, 0⟩
  repRanges := emptyRepRanges
  topPositionsA := []
  bottomPositionsA := []
  topPositionsB := []
  bottomPositionsB := []
  lastTopCounter := none
  lastRepCounter := none
  autoStopStartTime := none
  currentSample := none

/-- getWindowSize: 2 during warmup, 3 afterwards. -/
def getWindowSize (st : EngineState) : ℕ :=
  if st.warmupReps + st.workingReps < st.warmupTarget then 2 else 3

/-- Math.round on a nonnegative rational, as used by
calculateAverage. -/
def jsRound (q : ℚ) : ℤ := ⌊q + 1 / 2⌋

/-- calculateAverage: null on an empty window, otherwise the rounded
mean. -/
def calculateAverage (l : List ℕ) : Option ℚ :=
  if l = [] then none else some ((jsRound ((l.sum : ℚ) / l.length) : ℤ) : ℚ)

/-- calculateRange: null on an empty window, otherwise min and max. -/
def calculateRange (l : List ℕ) : Option PositionRange :=
  match l.min?, l.max? with
  | some a, some b => some ⟨a, b⟩
  | _, _ => none

/-- updateRepRanges: recompute all derived averages and ranges from
the four windows. -/
def updateRepRanges (st : EngineState) : EngineState :=
  { st with repRanges :=
    { maxRepPosA := calculateAverage st.topPositionsA
      minRepPosA := calculateAverage st.bottomPositionsA
      maxRepPosB := calculateAverage st.topPositionsB
      minRepPosB := calculateAverage st.bottomPositionsB
      maxRepPosARange := calculateRange st.topPositionsA
      minRepPosARange := calculateRange st.bottomPositionsA
      maxRepPosBRange := calculateRange st.topPositionsB
      minRepPosBRange := calculateRange st.bottomPositionsB } }

/-- Push onto a rolling window, dropping the oldest entry beyond the
current window size. -/
def pushWindow (w : List ℕ) (x : ℕ) (size : ℕ) : List ℕ :=
  let w := w ++ [x]
  if size < w.length then w.drop 1 else w

/-- recordTopPosition. -/
def recordTopPosition (posA posB : ℕ) (st : EngineState) : EngineState :=
  let size := getWindowSize st
  updateRepRanges
    { st with topPositionsA := pushWindow st.topPositionsA posA size
              topPositionsB := pushWindow st.topPositionsB posB size }

/-- recordBottomPosition. -/
def recordBottomPosition (posA posB : ℕ) (st : EngineState) : EngineState :=
  let size := getWindowSize st
  updateRepRanges
    { st with bottomPositionsA := pushWindow st.bottomPositionsA posA size
              bottomPositionsB := pushWindow st.bottomPositionsB posB size }

/-- JavaScript falsiness of a number-or-null: null and 0 are falsy. -/
def jsFalsy (x : Option ℚ) : Bool :=
  match x with
  | none => true
  | some v => decide (v = 0)

/-- JavaScript `x || 0` over number-or-null, as used for the range
computation (`maxRepPosA || 0`); on the values produced by
calculateAverage this coincides with getD 0. -/
def orZero (x : Option ℚ) : ℚ := x.getD 0

structure AutoStopResult where
  startTime : Option ℕ
  progress : ℚ
  fired : Bool
deriving DecidableEq, Repr

/-- checkAutoStop from useWorkout, with the current instant passed
explicitly.  Elapsed time is an integer so that the JavaScript
subtraction is preserved exactly.  The fired flag records an
invocation of the onAutoStop callback. -/
def checkAutoStop (now : ℕ) (sample : MonitorSample) (r : RepRanges)
    (start : Option ℕ) : AutoStopResult :=
  if jsFalsy r.minRepPosA && jsFalsy r.minRepPosB then ⟨start, 0, false⟩
  else
    let rangeA := orZero r.maxRepPosA - orZero r.minRepPosA
    let rangeB := orZero r.maxRepPosB - orZero r.minRepPosB
    let checkCableA := decide (50 < rangeA)
    let checkCableB := decide (50 < rangeB)
    if !checkCableA && !checkCableB then ⟨start, 0, false⟩
    else
      let dangerA := checkCableA && r.minRepPosA.isSome &&
        decide ((sample.posA : ℚ) ≤ orZero r.minRepPosA + rangeA * (5 / 100))
      let dangerB := checkCableB && r.minRepPosB.isSome &&
        decide ((sample.posB : ℚ) ≤ orZero r.minRepPosB + rangeB * (5 / 100))
      if dangerA || dangerB then
        let t0 := start.getD now
        let elapsed : ℤ := (now : ℤ) - (t0 : ℤ)
        ⟨some t0, min ((elapsed : ℚ) / 5000) 1, decide ((5000 : ℤ) ≤ elapsed)⟩
      else
        ⟨none, 0, false⟩

/-- handleMonitorSample: record the sample and live stats, auto-adjust
the chart maximum, and in Just Lift mode recompute the auto-stop state
against the current rep ranges.  The boolean output records whether
the onAutoStop callback was invoked on this sample. -/
def handleMonitorSample (now : ℕ) (sample : MonitorSample)
    (st : EngineState) : EngineState × Bool :=
  let st := { st with
    currentSample := some sample
    liveStats := ⟨sample.posA, sample.posB, sample.loadA, sample.loadB, sample.ticks⟩ }
  let currentMax := max sample.posA sample.posB
  let st := if st.maxPos < currentMax then { st with maxPos := currentMax + 100 } else st
  if st.isJustLiftMode then
    let r := checkAutoStop now sample st.repRanges st.autoStopStartTime
    ({ st with autoStopStartTime := r.startTime, autoStopProgress := r.progress }, r.fired)
  else (st, false)

/-- Wrap-aware 16-bit counter delta, exactly as computed in
handleRepNotification. -/
def wrapDelta (prev c : ℕ) : ℕ :=
  if prev ≤ c then c - prev else 0xffff - prev + c + 1

/-- DataView.getUint16 with bounds checking: reading past the end of
the buffer throws a RangeError, modelled as none. -/
def readU16 (data : List ℕ) (off : ℕ) : Option ℕ :=
  if off + 2 ≤ data.length then some (u16le data off) else none

/-- Sequential u16 reads at the given loop indices; the whole decode
throws (none) as soon as one read is out of bounds. -/
def decodeLoop (data : List ℕ) : List ℕ → Option (List ℕ)
  | [] => some []
  | i :: rest =>
    match readU16 data (2 * i), decodeLoop data rest with
    | some v, some vs => some (v :: vs)
    | _, _ => none

/-- The u16 decode loop of handleRepNotification.  JavaScript computes
`numU16 = data.length / 2` as an exact (possibly fractional) number
and iterates while `i < numU16`, so the loop body runs ⌈length/2⌉
times; on an odd-length buffer the final read is out of bounds. -/
def decodeU16s (data : List ℕ) : Option (List ℕ) :=
  decodeLoop data (List.range ((data.length + 1) / 2))

/-- Callback invocations performed by one rep notification. -/
structure RepEffects where
  topEvent : Bool
  bottomEvent : Bool
  autoStopCalled : Bool
  completeCalled : Bool
deriving DecidableEq, Repr

def noEffects : RepEffects := ⟨false, false, false, false⟩

/-- Top-of-range tracking in handleRepNotification: first observation
initialises the counter; a positive wrap-aware delta pushes onto the
top windows and, under stop-at-top with the final rep pending, fires
both callbacks.  Outputs: new state, TOP event observed, callbacks
fired. -/
def handleTopTracking (topCounter : ℕ) (sample : MonitorSample)
    (st : EngineState) : EngineState × Bool × Bool :=
  match st.lastTopCounter with
  | none => ({ st with lastTopCounter := some topCounter }, false, false)
  | some prev =>
    let topDelta := wrapDelta prev topCounter
    if 0 < topDelta then
      let st1 := recordTopPosition sample.posA sample.posB st
      let st1 := { st1 with lastTopCounter := some topCounter }
      let finalTop := st.stopAtTop && !st.isJustLiftMode &&
        decide (0 < st.targetReps) && decide (st.workingReps = st.targetReps - 1)
      (st1, true, finalTop)
    else (st, false, false)

/-- Rep-complete (bottom-of-range) tracking in handleRepNotification:
first observation initialises the counter; a positive delta pushes
onto the bottom windows and counts a warmup or working rep, stamping
the warmup end time on the rep that reaches the warmup target and
firing onWorkoutComplete on the working rep that reaches the target
(when not stop-at-top and not Just Lift).  Outputs: new state, BOTTOM
event observed, onWorkoutComplete fired. -/
def handleBottomTracking (now : ℕ) (completeCounter : ℕ)
    (sample : MonitorSample) (st : EngineState) : EngineState × Bool × Bool :=
  match st.lastRepCounter with
  | none => ({ st with lastRepCounter := some completeCounter }, false, false)
  | some prev =>
    let delta := wrapDelta prev completeCounter
    if 0 < delta then
      let st2 := recordBottomPosition sample.posA sample.posB st
      let totalReps := st2.warmupReps + st2.workingReps + 1
      if totalReps ≤ st2.warmupTarget then
        let newCount := st2.warmupReps + 1
        let st3 := { st2 with
          warmupReps := newCount
          currentWorkout :=
            if newCount = st2.warmupTarget then
              st2.currentWorkout.map
                (fun (w : CurrentWorkout) => { w with warmupEndTime := some now })
            else st2.currentWorkout }
        ({ st3 with lastRepCounter := some completeCounter }, true, false)
      else
        let newCount := st2.workingReps + 1
        let fireComplete := !st2.stopAtTop && !st2.isJustLiftMode &&
          decide (0 < st2.targetReps) && decide (st2.targetReps ≤ newCount)
        ({ st2 with workingReps := newCount, lastRepCounter := some completeCounter },
         true, fireComplete)
    else
      ({ st with lastRepCounter := some completeCounter }, false, false)

/-- handleRepNotification from useWorkout.  Payloads shorter than 6
bytes are ignored; the u16 decode loop may throw (none) on odd-length
payloads; notifications with no current sample or no active workout
are dropped unchanged; otherwise top and bottom tracking run in
order. -/
def handleRepNotification (now : ℕ) (data : List ℕ) (st : EngineState) :
    Option (EngineState × RepEffects) :=
  if data.length < 6 then some (st, noEffects)
  else
    match decodeU16s data with
    | none => none
    | some u16Values =>
      if u16Values.length < 3 then some (st, noEffects)
      else
        let topCounter := u16Values.getD 0 0
        let completeCounter := u16Values.getD 2 0
        match st.currentSample, st.currentWorkout with
        | some sample, some _ =>
          let top := handleTopTracking topCounter sample st
          let bottom := handleBottomTracking now completeCounter sample top.1
          some (bottom.1,
            { topEvent := top.2.1, bottomEvent := bottom.2.1,
              autoStopCalled := top.2.2,
              completeCalled := top.2.2 || bottom.2.2 })
        | _, _ => some (st, noEffects)

/-- startWorkout: reset all counters, windows, ranges and the
auto-stop timer; record the start time. -/
def startWorkout (now : ℕ) (mode : String) (weightKg : ℚ) (reps : ℕ)
    (isJustLift : Bool) (st : EngineState) : EngineState :=
  { st with
    currentWorkout := some ⟨mode, weightKg, reps, now, none, none⟩
    targetReps := reps
    isJustLiftMode := isJustLift
    warmupReps := 0
    workingReps := 0
    topPositionsA := []
    bottomPositionsA := []
    topPositionsB := []
    bottomPositionsB := []
    lastTopCounter := none
    lastRepCounter := none
    autoStopStartTime := none
    autoStopProgress := 0
    repRanges := emptyRepRanges }

/-- Fold a sequence of timestamped monitor samples through the engine,
recording for each sample the auto-stop progress after the sample and
whether the onAutoStop callback fired on it. -/
def engineMonitorRun (st : EngineState) :
    List (ℕ × MonitorSample) → EngineState × List (ℚ × Bool)
  | [] => (st, [])
  | (t, s) :: rest =>
    let step := handleMonitorSample t s st
    let tail := engineMonitorRun step.1 rest
    (tail.1, (step.1.autoStopProgress, step.2) :: tail.2)

/-- Fold a sequence of timestamped rep-notification payloads through
the engine, collecting the effects; none if any notification
throws. -/
def engineRepRun (st : EngineState) :
    List (ℕ × List ℕ) → Option (EngineState × List RepEffects)
  | [] => some (st, [])
  | (t, data) :: rest =>
    match handleRepNotification t data st with
    | none => none
    | some (st1, eff) =>
      match engineRepRun st1 rest with
      | none => none
      | some (st2, effs) => some (st2, eff :: effs)

/-- The exact condition under which checkAutoStop takes its
danger-zone branch: some bottom average is truthy, some cable has a
range above the 50-unit threshold, and an eligible cable's current
position is at or below 5 percent above its bottom average. -/
def eligibleDanger (r : RepRanges) (s : MonitorSample) : Bool :=
  !(jsFalsy r.minRepPosA && jsFalsy r.minRepPosB) &&
  ((decide (50 < orZero r.maxRepPosA - orZero r.minRepPosA) ||
    decide (50 < orZero r.maxRepPosB - orZero r.minRepPosB)) &&
   ((decide (50 < orZero r.maxRepPosA - orZero r.minRepPosA) && r.minRepPosA.isSome &&
       decide ((s.posA : ℚ) ≤ orZero r.minRepPosA +
         (orZero r.maxRepPosA - orZero r.minRepPosA) * (5 / 100))) ||
    (decide (50 < orZero r.maxRepPosB - orZero r.minRepPosB) && r.minRepPosB.isSome &&
       decide ((s.posB : ℚ) ≤ orZero r.minRepPosB +
         (orZero r.maxRepPosB - orZero r.minRepPosB) * (5 / 100)))))

/-! Concrete fixtures used by witnesses and counterexamples. -/

/-- Monitor sample with the given cable positions and all other fields
zero. -/
def mkSample (pA pB : ℕ) : MonitorSample :=
  { timestamp := 0, ticks := 0, posA := pA, posB := pB, loadA := 0, loadB := 0, raw := [] }

/-- Rep ranges of the auto-stop scenario: cable A bottom average 200,
top average 260 (range 60, above the 50-unit threshold), cable B never
observed. -/
def dangerRanges : RepRanges :=
  { emptyRepRanges with minRepPosA := some 200, maxRepPosA := some 260 }

/-- Engine mid unlimited-mode workout with the scenario ranges
established and the auto-stop timer unarmed. -/
def dangerState : EngineState :=
  { initialEngineState with isJustLiftMode := true, repRanges := dangerRanges }

/-- Rep-notification payload whose top and complete counters both
equal k: three little-endian u16 values [k, 0, k]. -/
def repPayload (k : ℕ) : List ℕ :=
  [k % 256, k / 256 % 256, 0, 0, k % 256, k / 256 % 256]

/-- Engine state of the end-to-end scenario after starting a 10-rep
Old School program and receiving one monitor sample. -/
def scenarioStart : EngineState :=
  (handleMonitorSample 1 (mkSample 300 310)
    (startWorkout 0 "Old School" 50 10 false initialEngineState)).1

/-- Feed n rep notifications with strictly increasing counters
1, 2, ..., n into the scenario state. -/
def scenarioRun (n : ℕ) : Option (EngineState × List RepEffects) :=
  engineRepRun scenarioStart ((List.range n).map fun i => (10 + i, repPayload (i + 1)))

/-- Representation invariant of the transaction queue: every submitted
operation is in exactly one place — settled (in submission order),
in flight, or still pending — and the queue is drained whenever
nothing is in flight. -/
def qInvariant (sub : List ℕ) (s : QState) : Prop :=
  s.settled.map Prod.fst ++ s.running.toList ++ s.pending = sub ∧
  (s.running = none → s.pending = [])

/-! Helper lemmas. -/

/-- A decode loop whose reads are all in bounds succeeds. -/
theorem decodeLoop_isSome (data : List ℕ) (idxs : List ℕ)
    (h : ∀ i ∈ idxs, 2 * i + 2 ≤ data.length) :
    (decodeLoop data idxs).isSome = true := by
  induction idxs with
  | nil => rfl
  | cons i rest ih =>
    have hi : readU16 data (2 * i) = some (u16le data (2 * i)) := by
      simp [readU16, h i (by simp)]
    obtain ⟨vs, hvs⟩ :=
      Option.isSome_iff_exists.mp (ih fun j hj => h j (by simp [hj]))
    simp [decodeLoop, hi, hvs]

/-- A decode loop with an out-of-bounds read throws. -/
theorem decodeLoop_none (data : List ℕ) (idxs : List ℕ) (i : ℕ) (hi : i ∈ idxs)
    (hoob : data.length < 2 * i + 2) : decodeLoop data idxs = none := by
  induction idxs with
  | nil => simp at hi
  | cons j rest ih =>
    rcases List.mem_cons.mp hi with h | h
    · subst h
      have hr : readU16 data (2 * i) = none := by
        simp [readU16]
        omega
      simp [decodeLoop, hr]
    · cases hj : readU16 data (2 * j) <;> simp [decodeLoop, hj, ih h]

/-- On an even-length buffer every read of the rep decode loop is in
bounds. -/
theorem decodeU16s_even_isSome (data : List ℕ) (h : data.length % 2 = 0) :
    (decodeU16s data).isSome = true := by
  refine decodeLoop_isSome data _ fun i hi => ?_
  have := List.mem_range.mp hi
  omega

/-- On an odd-length buffer of length at least 7 the final read of the
rep decode loop is out of bounds and the decode throws. -/
theorem decodeU16s_odd_none (data : List ℕ) (h : data.length % 2 = 1)
    (h7 : 7 ≤ data.length) : decodeU16s data = none := by
  refine decodeLoop_none data _ ((data.length - 1) / 2) ?_ ?_
  · exact List.mem_range.mpr (by omega)
  · omega

/-- JavaScript `x || 0` agrees with the default-0 read of an optional
number. -/
theorem jsOrZero_eq_getD (x : Option ℚ) : jsOrZero x = x.getD 0 := by
  cases x with
  | none => rfl
  | some v =>
    simp only [jsOrZero, Option.getD_some]
    split <;> simp_all

/-!
C10.  In unlimited mode, whenever both cables' bottom-window averages
are unset or exactly 0, auto-stop progress is set to 0 and the
auto-stop timer is never armed on that sample, even if top-window
averages establish a cable range greater than 50 units and the current
position lies within the bottom 5 percent of that range.
-/

/-- C10: when both bottom averages are JavaScript-falsy (null or 0),
checkAutoStop returns before computing ranges: progress is 0, no
callback fires, and the timer state is left exactly as it was (in
particular it is never armed on that sample), regardless of what the
top averages or the current position are. -/
theorem autoStop_zero_when_bottoms_falsy (now : ℕ) (s : MonitorSample)
    (r : RepRanges) (start : Option ℕ)
    (h1 : jsFalsy r.minRepPosA = true) (h2 : jsFalsy r.minRepPosB = true) :
    checkAutoStop now s r start = ⟨start, 0, false⟩ := by
  simp [checkAutoStop, h1, h2]

/-- Witness for C10: bottom average exactly 0 and top average 100 give
cable A a range of 100 > 50, and position 2 is within the bottom 5
percent of that range, yet progress is 0 and the timer stays unarmed. -/
theorem autoStop_zero_when_bottoms_falsy_witness :
    checkAutoStop 1000 (mkSample 2 9999)
      { emptyRepRanges with minRepPosA := some 0, maxRepPosA := some 100 } none =
      ⟨none, 0, false⟩ ∧
    50 < orZero (some (100 : ℚ)) - orZero (some (0 : ℚ)) ∧
    ((mkSample 2 9999).posA : ℚ) ≤
      orZero (some (0 : ℚ)) + (orZero (some (100 : ℚ)) - orZero (some (0 : ℚ))) * (5 / 100) :=
  ⟨autoStop_zero_when_bottoms_falsy 1000 (mkSample 2 9999) _ none (by decide) (by decide),
   by norm_num [orZero], by norm_num [orZero, mkSample]⟩

/-!
C5.  Position spike filter on monitor decode.
-/

/-- C5: on every monitor decode of a buffer of at least 16 bytes, for
each cable independently, a decoded position above 50000 is replaced
in the emitted sample by that cable's last-good value and leaves the
last-good value unchanged, while a position at most 50000 is emitted
as-is and becomes the new last-good value. -/
theorem monitor_spike_filter (now : ℕ) (st : DeviceState) (data : List ℕ)
    (h16 : 16 ≤ data.length) :
    (50000 < u16le data 4 →
      (parseMonitorData now st data).1.posA = st.lastGoodPosA ∧
      (parseMonitorData now st data).2.lastGoodPosA = st.lastGoodPosA) ∧
    (u16le data 4 ≤ 50000 →
      (parseMonitorData now st data).1.posA = u16le data 4 ∧
      (parseMonitorData now st data).2.lastGoodPosA = u16le data 4) ∧
    (50000 < u16le data 10 →
      (parseMonitorData now st data).1.posB = st.lastGoodPosB ∧
      (parseMonitorData now st data).2.lastGoodPosB = st.lastGoodPosB) ∧
    (u16le data 10 ≤ 50000 →
      (parseMonitorData now st data).1.posB = u16le data 10 ∧
      (parseMonitorData now st data).2.lastGoodPosB = u16le data 10) := by
  have hlt : ¬ data.length < 16 := by omega
  refine ⟨fun hA => ?_, fun hA => ?_, fun hB => ?_, fun hB => ?_⟩
  · simp [parseMonitorData, hlt, hA]
  · have h2 : ¬ 50000 < u16le data 4 := by omega
    simp [parseMonitorData, hlt, h2]
  · simp [parseMonitorData, hlt, hB]
  · have h2 : ¬ 50000 < u16le data 10 := by omega
    simp [parseMonitorData, hlt, h2]

/-- Witness for C5: with lastGoodPosA = 120, a decoded posA of 60000
emits 120 and keeps 120; a decoded posA of 300 emits 300 and updates
the last-good value to 300. -/
theorem monitor_spike_filter_witness :
    ((parseMonitorData 0 ⟨120, 0⟩
        [0, 0, 0, 0, 0x60, 0xea, 0, 0, 0, 0, 0, 0, 0, 0, 0, 0]).1.posA = 120 ∧
     (parseMonitorData 0 ⟨120, 0⟩
        [0, 0, 0, 0, 0x60, 0xea, 0, 0, 0, 0, 0, 0, 0, 0, 0, 0]).2.lastGoodPosA = 120) ∧
    ((parseMonitorData 0 ⟨120, 0⟩
        [0, 0, 0, 0, 0x2c, 0x01, 0, 0, 0, 0, 0, 0, 0, 0, 0, 0]).1.posA = 300 ∧
     (parseMonitorData 0 ⟨120, 0⟩
        [0, 0, 0, 0, 0x2c, 0x01, 0, 0, 0, 0, 0, 0, 0, 0, 0, 0]).2.lastGoodPosA = 300) :=
  ⟨(monitor_spike_filter 0 ⟨120, 0⟩ _ (by decide)).1 (by decide),
   (monitor_spike_filter 0 ⟨120, 0⟩ _ (by decide)).2.1 (by decide)⟩

/-!
C6.  Monitor decode: short buffers degrade to a zeroed sample with raw
preserved; the tick counter is reconstructed from two u16 halves and
loads are u16/100.  The code computes `f0 + (f1 << 16)` with the
JavaScript 32-bit signed shift, so for a high half of 0x8000 or more
the reconstructed tick counter comes out negative instead of the
intended 32-bit value: the code contradicts its own comment
(Reconstruct 32-bit tick counter) and the glossary.
-/

/-- C6 (code-bug exhibit): on the 16-byte buffer whose tick high half
is 0x8000, the decoder emits ticks = -2147483648, while the 32-bit
reconstruction low + high * 2^16 described by the claim is
2147483648.  The remaining parts of the claim hold: a short buffer
yields an all-zero sample preserving raw, and loads are the u16 fields
divided by 100. -/
theorem monitor_ticks_sign_overflow :
    (parseMonitorData 0 ⟨0, 0⟩
        [0, 0, 0, 0x80, 0, 0, 0, 0, 0, 0, 0, 0, 0, 0, 0, 0]).1.ticks = -2147483648 ∧
    (u16le [0, 0, 0, 0x80, 0, 0, 0, 0, 0, 0, 0, 0, 0, 0, 0, 0] 0 : ℤ) +
      (u16le [0, 0, 0, 0x80, 0, 0, 0, 0, 0, 0, 0, 0, 0, 0, 0, 0] 2 : ℤ) * 65536 =
      2147483648 ∧
    (parseMonitorData 7 ⟨0, 0⟩ [1, 2, 3]).1.ticks = 0 ∧
    (parseMonitorData 7 ⟨0, 0⟩ [1, 2, 3]).1.posA = 0 ∧
    (parseMonitorData 7 ⟨0, 0⟩ [1, 2, 3]).1.raw = [1, 2, 3] ∧
    (parseMonitorData 0 ⟨0, 0⟩
        [0, 0, 0, 0, 0, 0, 0, 0, 0xf4, 0x01, 0, 0, 0, 0, 0xc8, 0]).1.loadA = 5 ∧
    (parseMonitorData 0 ⟨0, 0⟩
        [0, 0, 0, 0, 0, 0, 0, 0, 0xf4, 0x01, 0, 0, 0, 0, 0xc8, 0]).1.loadB = 2 := by
  refine ⟨by decide, by decide, by decide, by decide, by decide, ?_, ?_⟩ <;>
    norm_num [parseMonitorData, u16le]

/-!
C2.  Wrap-aware counter deltas and first-observation behaviour.
-/

/-- C2: the engine computes every counter delta as c - prev when
c ≥ prev and as 0xFFFF - prev + c + 1 when c < prev; a counter whose
previous value is unset is only initialised and produces no event; for
an initialised counter a TOP (resp. BOTTOM) event fires exactly when
the wrap-aware delta is positive. -/
theorem repCounter_wrap_delta :
    (∀ prev c, prev ≤ c → wrapDelta prev c = c - prev) ∧
    (∀ prev c, c < prev → wrapDelta prev c = 0xffff - prev + c + 1) ∧
    (∀ tc sample (st : EngineState), st.lastTopCounter = none →
      handleTopTracking tc sample st =
        ({ st with lastTopCounter := some tc }, false, false)) ∧
    (∀ now cc sample (st : EngineState), st.lastRepCounter = none →
      handleBottomTracking now cc sample st =
        ({ st with lastRepCounter := some cc }, false, false)) ∧
    (∀ tc sample (st : EngineState) prev, st.lastTopCounter = some prev →
      ((handleTopTracking tc sample st).2.1 = true ↔ 0 < wrapDelta prev tc)) ∧
    (∀ now cc sample (st : EngineState) prev, st.lastRepCounter = some prev →
      ((handleBottomTracking now cc sample st).2.1 = true ↔ 0 < wrapDelta prev cc)) := by
  refine ⟨fun prev c h => by simp [wrapDelta, h],
          fun prev c h => by simp [wrapDelta, Nat.not_le.mpr h],
          fun tc sample st h => by simp [handleTopTracking, h],
          fun now cc sample st h => by simp [handleBottomTracking, h],
          fun tc sample st prev h => ?_,
          fun now cc sample st prev h => ?_⟩
  · by_cases hd : 0 < wrapDelta prev tc <;> simp [handleTopTracking, h, hd]
  · by_cases hd : 0 < wrapDelta prev cc <;> simp [handleBottomTracking, h, hd]
    split <;> simp

/-- Witness for C2: lastTopCounter = 65530 and a new top counter of 4
give delta 0xFFFF - 65530 + 4 + 1 = 10, and a TOP event fires. -/
theorem repCounter_wrap_delta_witness :
    wrapDelta 65530 4 = 0xffff - 65530 + 4 + 1 ∧
    (handleTopTracking 4 (mkSample 1 2)
      { initialEngineState with lastTopCounter := some 65530 }).2.1 = true ∧
    wrapDelta 65530 4 = 10 :=
  ⟨repCounter_wrap_delta.2.1 65530 4 (by decide),
   (repCounter_wrap_delta.2.2.2.2.1 4 (mkSample 1 2)
      { initialEngineState with lastTopCounter := some 65530 } 65530 rfl).mpr (by decide),
   by decide⟩

/-!
C9.  Rep notifications without a current sample or an active workout
are dropped with the engine untouched.
-/

/-- C9: a decodable rep notification arriving while the engine has no
current monitor sample, or no active workout, leaves the state exactly
unchanged and fires nothing — in particular the last-observed counters
stay uninitialised, so the next processed notification is treated as
the first observation. -/
theorem repNotification_dropped_without_context (now : ℕ) (data : List ℕ)
    (st : EngineState)
    (hguard : st.currentSample = none ∨ st.currentWorkout = none)
    (heven : data.length % 2 = 0) :
    handleRepNotification now data st = some (st, noEffects) := by
  unfold handleRepNotification
  by_cases h6 : data.length < 6
  · simp [h6]
  · obtain ⟨vals, hvals⟩ :=
      Option.isSome_iff_exists.mp (decodeU16s_even_isSome data heven)
    simp only [h6, if_false, hvals]
    by_cases h3 : vals.length < 3
    · simp [h3]
    · simp only [h3, if_false]
      cases hs : st.currentSample <;> cases hw : st.currentWorkout <;>
        first
          | rfl
          | (exfalso; rcases hguard with h | h <;> simp_all)

/-- Witness for C9: a valid 6-byte notification against the freshly
reset engine (no sample, no workout) is dropped unchanged. -/
theorem repNotification_dropped_without_context_witness :
    handleRepNotification 0 [4, 0, 0, 0, 7, 0] initialEngineState =
      some (initialEngineState, noEffects) :=
  repNotification_dropped_without_context 0 [4, 0, 0, 0, 7, 0]
    initialEngineState (Or.inl rfl) (by decide)

/-!
C8.  The claim states the rep-notification handler never raises.  The
decode loop runs ⌈length/2⌉ times, so on an odd-length payload of
length ≥ 7 the final 2-byte read starts at the last byte and runs past
the end of the buffer: DataView.getUint16 throws a RangeError.  The
safety guarantee holds exactly for even-length payloads (and for any
payload shorter than 6 bytes, which is ignored before decoding).
-/

/-- C8 (amended): payloads shorter than 6 bytes are silently ignored;
every even-length payload is handled without raising, its u16 values
read in bounds; an odd-length payload of length at least 7 performs an
out-of-bounds read and raises. -/
theorem repNotification_even_length_safe :
    (∀ now data (st : EngineState), data.length % 2 = 0 →
      (handleRepNotification now data st).isSome = true) ∧
    (∀ now data (st : EngineState), data.length < 6 →
      handleRepNotification now data st = some (st, noEffects)) ∧
    (∀ now data (st : EngineState), data.length % 2 = 1 → 7 ≤ data.length →
      handleRepNotification now data st = none) := by
  refine ⟨fun now data st heven => ?_, fun now data st h6 => ?_,
          fun now data st hodd h7 => ?_⟩
  · unfold handleRepNotification
    by_cases h6 : data.length < 6
    · simp [h6]
    · obtain ⟨vals, hvals⟩ :=
        Option.isSome_iff_exists.mp (decodeU16s_even_isSome data heven)
      simp only [h6, if_false, hvals]
      by_cases h3 : vals.length < 3
      · simp [h3]
      · simp only [h3, if_false]
        cases st.currentSample <;> cases st.currentWorkout <;> simp
  · simp [handleRepNotification, h6]
  · have hd := decodeU16s_odd_none data hodd h7
    have h6 : ¬ data.length < 6 := by omega
    simp [handleRepNotification, h6, hd]

/-- Counterexample for C8 as stated: the 7-byte payload
[1,2,3,4,5,6,7] passes the ≥ 6 length check, but its decode loop runs
4 times and the read at offset 6 needs bytes 6 and 7 — out of bounds,
so the handler raises instead of handling it. -/
theorem repNotification_oob_counterexample :
    handleRepNotification 0 [1, 2, 3, 4, 5, 6, 7] initialEngineState = none := by
  decide

/-- Witness for C8: a 6-byte payload is handled (isSome), a 3-byte one
is ignored unchanged, and the 7-byte payload raises. -/
theorem repNotification_even_length_safe_witness :
    (handleRepNotification 0 [4, 0, 0, 0, 7, 0] initialEngineState).isSome = true ∧
    handleRepNotification 0 [1, 2, 3] initialEngineState =
      some (initialEngineState, noEffects) ∧
    handleRepNotification 5 [9, 9, 9, 9, 9, 9, 9] initialEngineState = none :=
  ⟨repNotification_even_length_safe.1 0 [4, 0, 0, 0, 7, 0] initialEngineState (by decide),
   repNotification_even_length_safe.2.1 0 [1, 2, 3] initialEngineState (by decide),
   repNotification_even_length_safe.2.2 5 [9, 9, 9, 9, 9, 9, 9] initialEngineState
     (by decide) (by decide)⟩

/-!
C3.  Transaction-queue serialisation.  The queue is modelled as a
labelled transition system; at most one operation is ever in the
running slot by construction, which embeds the busy-flag mutual
exclusion of the source.
-/

/-- Each queue event preserves the representation invariant. -/
theorem qStep_inv (sub : List ℕ) (s : QState) (e : QEvent)
    (h : qInvariant sub s) : qInvariant (sub ++ submittedIds [e]) (qStep s e) := by
  obtain ⟨pend, run, set⟩ := s
  obtain ⟨h1, h2⟩ := h
  simp only [qInvariant] at h1 h2 ⊢
  cases e with
  | submit id =>
    cases run with
    | some r =>
      refine ⟨?_, fun hn => by simp [qStep, processGattQueue] at hn⟩
      simp only [qStep, processGattQueue, submittedIds, List.filterMap] at h1 ⊢
      simp only [← h1, List.append_assoc]
    | none =>
      have hp : pend = [] := h2 rfl
      subst hp
      refine ⟨?_, fun hn => by simp [qStep, processGattQueue] at hn⟩
      simp only [qStep, processGattQueue, submittedIds, List.filterMap] at h1 ⊢
      simp only [Option.toList, List.nil_append, List.append_nil] at h1 ⊢
      simp [← h1]
  | finish ok =>
    cases run with
    | none =>
      refine ⟨?_, fun _ => h2 rfl⟩
      simpa [qStep, submittedIds, List.filterMap] using h1
    | some id =>
      cases pend with
      | nil =>
        refine ⟨?_, fun _ => rfl⟩
        simp only [qStep, processGattQueue, submittedIds, List.filterMap] at h1 ⊢
        simpa using h1
      | cons p rest =>
        refine ⟨?_, fun hn => by simp [qStep, processGattQueue] at hn⟩
        simp only [qStep, processGattQueue, submittedIds, List.filterMap] at h1 ⊢
        simpa [List.append_assoc] using h1

/-- The invariant holds after any event trace. -/
theorem qRun_inv (events : List QEvent) : ∀ (s : QState) (sub : List ℕ),
    qInvariant sub s →
    qInvariant (sub ++ submittedIds events) (events.foldl qStep s) := by
  induction events with
  | nil => intro s sub h; simpa [submittedIds] using h
  | cons e es ih =>
    intro s sub h
    have hsplit : submittedIds (e :: es) = submittedIds [e] ++ submittedIds es := by
      cases e <;> simp [submittedIds, List.filterMap]
    rw [hsplit, ← List.append_assoc, List.foldl_cons]
    exact ih (qStep s e) (sub ++ submittedIds [e]) (qStep_inv sub s e h)

/-- C3: for every event trace against the transaction queue, the
settled operations (resolutions and rejections reported to callers),
the at-most-one in-flight operation, and the pending queue together
list exactly the submitted operations in submission order — so callers
are answered in FIFO order and a rejection never displaces or blocks a
later operation — and whenever nothing is in flight the queue has
drained itself. -/
theorem transactionQueue_fifo (events : List QEvent) :
    (qRun events).settled.map Prod.fst ++ (qRun events).running.toList ++
      (qRun events).pending = submittedIds events ∧
    ((qRun events).running = none → (qRun events).pending = []) := by
  have h := qRun_inv events qInit [] ⟨rfl, fun _ => rfl⟩
  simpa [qRun, qInvariant] using h

/-- Witness for C3: a trace where the first operation is slow and
fails while two more are queued behind it still settles 1, 2, 3 in
submission order and drains. -/
theorem transactionQueue_fifo_witness :
    (qRun [QEvent.submit 1, QEvent.submit 2, QEvent.submit 3, QEvent.finish false,
           QEvent.finish true, QEvent.finish true]).settled.map Prod.fst ++
      (qRun [QEvent.submit 1, QEvent.submit 2, QEvent.submit 3, QEvent.finish false,
           QEvent.finish true, QEvent.finish true]).running.toList ++
      (qRun [QEvent.submit 1, QEvent.submit 2, QEvent.submit 3, QEvent.finish false,
           QEvent.finish true, QEvent.finish true]).pending =
      submittedIds [QEvent.submit 1, QEvent.submit 2, QEvent.submit 3,
           QEvent.finish false, QEvent.finish true, QEvent.finish true] ∧
    (qRun [QEvent.submit 1, QEvent.submit 2, QEvent.submit 3, QEvent.finish false,
           QEvent.finish true, QEvent.finish true]).pending = [] :=
  ⟨(transactionQueue_fifo _).1,
   (transactionQueue_fifo [QEvent.submit 1, QEvent.submit 2, QEvent.submit 3,
      QEvent.finish false, QEvent.finish true, QEvent.finish true]).2 (by decide)⟩

/-!
C4.  Layout of the 96-byte program frame.
-/

/-- Every mode profile block is 32 bytes. -/
theorem getModeProfile_size (m : ProgramMode) : (getModeProfile m).size = 32 := by
  cases m <;> rfl

set_option maxHeartbeats 3200000 in
/-- C4: for every valid ProgramParams, buildProgramParams returns a
96-byte frame whose byte at offset 0x04 is 0xFF when the request is
unlimited (Just Lift) and reps + 3 otherwise, whose bytes 0x30 to 0x4F
exactly equal getModeProfile(profileMode) with profileMode the base
mode when unlimited and the selected mode otherwise, and whose
little-endian float32 fields at 0x54, 0x58 and 0x5C hold the effective
weight, the per-cable weight, and the progression defaulting to 0. -/
theorem buildProgramParams_layout (p : ProgramParams) (hv : validProgramParams p) :
    (buildProgramParams p).size = 96 ∧
    (buildProgramParams p).cells 0x04 =
      (if p.isJustLift then Cell.byte 0xff else Cell.byte (p.reps + 3)) ∧
    readCells (buildProgramParams p) 0x30 32 =
      readCells (getModeProfile (if p.isJustLift then p.baseMode else p.mode)) 0 32 ∧
    readCells (buildProgramParams p) 0x54 4 =
      [.f32 p.effectiveKg 0, .f32 p.effectiveKg 1, .f32 p.effectiveKg 2,
       .f32 p.effectiveKg 3] ∧
    readCells (buildProgramParams p) 0x58 4 =
      [.f32 p.perCableKg 0, .f32 p.perCableKg 1, .f32 p.perCableKg 2,
       .f32 p.perCableKg 3] ∧
    readCells (buildProgramParams p) 0x5c 4 =
      [.f32 (p.progressionKg.getD 0) 0, .f32 (p.progressionKg.getD 0) 1,
       .f32 (p.progressionKg.getD 0) 2, .f32 (p.progressionKg.getD 0) 3] := by
  obtain ⟨mode, bm, jl, reps, pc, eff, prog⟩ := p
  obtain ⟨-, -, hreps, -⟩ := hv
  cases jl with
  | false =>
    have hr : reps ≤ 100 := by
      rcases hreps with h | ⟨h1, h2⟩
      · simp at h
      · exact h2
    have hmod : (reps + 3) % 256 = reps + 3 := Nat.mod_eq_of_lt (by omega)
    refine ⟨rfl, ?_, ?_, ?_, ?_, ?_⟩ <;>
      simp [buildProgramParams, readCells, bufBlit, bufSet, setF32LE,
        getModeProfile_size, hmod, jsOrZero_eq_getD, List.range_succ]
  | true =>
    refine ⟨rfl, ?_, ?_, ?_, ?_, ?_⟩ <;>
      simp [buildProgramParams, readCells, bufBlit, bufSet, setF32LE,
        getModeProfile_size, jsOrZero_eq_getD, List.range_succ]

/-- Witness for C4: a valid 10-rep Old School request (50 kg per
cable, 60 kg effective, 1 kg progression) yields the documented
layout; in particular byte 0x04 is 10 + 3 = 13. -/
theorem buildProgramParams_layout_witness :
    (buildProgramParams ⟨.oldSchool, .oldSchool, false, 10, 50, 60, some 1⟩).size = 96 ∧
    (buildProgramParams ⟨.oldSchool, .oldSchool, false, 10, 50, 60, some 1⟩).cells 0x04 =
      Cell.byte 13 ∧
    readCells (buildProgramParams ⟨.oldSchool, .oldSchool, false, 10, 50, 60, some 1⟩)
        0x30 32 = readCells (getModeProfile .oldSchool) 0 32 ∧
    readCells (buildProgramParams ⟨.oldSchool, .oldSchool, false, 10, 50, 60, some 1⟩)
        0x54 4 = [.f32 60 0, .f32 60 1, .f32 60 2, .f32 60 3] ∧
    readCells (buildProgramParams ⟨.oldSchool, .oldSchool, false, 10, 50, 60, some 1⟩)
        0x58 4 = [.f32 50 0, .f32 50 1, .f32 50 2, .f32 50 3] ∧
    readCells (buildProgramParams ⟨.oldSchool, .oldSchool, false, 10, 50, 60, some 1⟩)
        0x5c 4 = [.f32 1 0, .f32 1 1, .f32 1 2, .f32 1 3] :=
  buildProgramParams_layout ⟨.oldSchool, .oldSchool, false, 10, 50, 60, some 1⟩
    ⟨by norm_num, by norm_num, Or.inr ⟨by norm_num, by norm_num⟩,
     by rintro q hq; simp at hq; subst hq; constructor <;> norm_num⟩

/-!
C7.  BOTTOM-event rep counting.  The general mechanism of the claim
holds: every BOTTOM event pushes the positions, counts a warmup rep
while warmupReps + workingReps < warmupTarget and a working rep
otherwise, stamps the warmup end on the rep reaching the target, and
fires completion on the working rep reaching targetReps (when not
stop-at-top and not unlimited).  The end-to-end numbers are off by
one: the first notification only initialises the counters (claim C2),
so 3 increasing notifications yield warmupReps = 2, the 4th yields
warmupReps = 3 with the warmup end stamped, and the 5th yields
workingReps = 1.
-/

/-- C7 (amended): general BOTTOM-event behaviour, plus the corrected
scenario — a 10-rep Old School program fed 4 rep notifications with
strictly increasing counters has warmupReps = 3, workingReps = 0 and a
recorded warmup end time, and the 5th notification gives
workingReps = 1. -/
theorem bottom_event_rep_counting :
    (∀ (now cc : ℕ) (sample : MonitorSample) (st : EngineState) (prev : ℕ),
      st.lastRepCounter = some prev → 0 < wrapDelta prev cc →
      ((handleBottomTracking now cc sample st).2.1 = true ∧
       (handleBottomTracking now cc sample st).1.bottomPositionsA =
         pushWindow st.bottomPositionsA sample.posA (getWindowSize st) ∧
       (handleBottomTracking now cc sample st).1.bottomPositionsB =
         pushWindow st.bottomPositionsB sample.posB (getWindowSize st) ∧
       (st.warmupReps + st.workingReps < st.warmupTarget →
         (handleBottomTracking now cc sample st).1.warmupReps = st.warmupReps + 1 ∧
         (handleBottomTracking now cc sample st).1.workingReps = st.workingReps ∧
         (handleBottomTracking now cc sample st).1.currentWorkout =
           (if st.warmupReps + 1 = st.warmupTarget then
              st.currentWorkout.map (fun w => { w with warmupEndTime := some now })
            else st.currentWorkout)) ∧
       (st.warmupTarget ≤ st.warmupReps + st.workingReps →
         (handleBottomTracking now cc sample st).1.workingReps = st.workingReps + 1 ∧
         (handleBottomTracking now cc sample st).1.warmupReps = st.warmupReps ∧
         (handleBottomTracking now cc sample st).2.2 =
           (!st.stopAtTop && !st.isJustLiftMode && decide (0 < st.targetReps) &&
            decide (st.targetReps ≤ st.workingReps + 1))))) ∧
    (scenarioRun 4).map (fun p =>
      (p.1.warmupReps, p.1.workingReps,
       p.1.currentWorkout.map (fun w => w.warmupEndTime))) = some (3, 0, some (some 13)) ∧
    (scenarioRun 5).map (fun p => (p.1.warmupReps, p.1.workingReps)) = some (3, 1) := by
  refine ⟨?_, by decide, by decide⟩
  intro now cc sample st prev h hd
  unfold handleBottomTracking
  simp only [h]
  rw [if_pos hd]
  by_cases hw : st.warmupReps + st.workingReps < st.warmupTarget
  · have hw' : (recordBottomPosition sample.posA sample.posB st).warmupReps +
        (recordBottomPosition sample.posA sample.posB st).workingReps + 1 ≤
        (recordBottomPosition sample.posA sample.posB st).warmupTarget := hw
    rw [if_pos hw']
    refine ⟨rfl, rfl, rfl, fun _ => ⟨rfl, rfl, ?_⟩, fun hw2 => absurd hw (by omega)⟩
    simp only [recordBottomPosition, updateRepRanges]
  · have hw' : ¬ ((recordBottomPosition sample.posA sample.posB st).warmupReps +
        (recordBottomPosition sample.posA sample.posB st).workingReps + 1 ≤
        (recordBottomPosition sample.posA sample.posB st).warmupTarget) := hw
    rw [if_neg hw']
    exact ⟨rfl, rfl, rfl, fun hw2 => absurd hw2 hw, fun _ => ⟨rfl, rfl, rfl⟩⟩

/-- Counterexample for C7 as stated: feeding 3 rep notifications with
strictly increasing counters into a fresh 10-rep program yields
warmupReps = 2, not 3 — the first notification only initialises the
counters and counts no rep. -/
theorem warmup_scenario_counterexample :
    (scenarioRun 3).map (fun p => p.1.warmupReps) = some 2 ∧
    ¬ (scenarioRun 3).map (fun p => p.1.warmupReps) = some 3 :=
  ⟨by decide, by decide⟩

/-- Witness for C7: a BOTTOM event with delta 1 against an engine in
the warmup phase counts a warmup rep. -/
theorem bottom_event_rep_counting_witness :
    (handleBottomTracking 99 6 (mkSample 7 8)
      { initialEngineState with lastRepCounter := some 5 }).2.1 = true ∧
    (handleBottomTracking 99 6 (mkSample 7 8)
      { initialEngineState with lastRepCounter := some 5 }).1.warmupReps = 1 :=
  ⟨(bottom_event_rep_counting.1 99 6 (mkSample 7 8)
      { initialEngineState with lastRepCounter := some 5 } 5 rfl (by decide)).1,
   ((bottom_event_rep_counting.1 99 6 (mkSample 7 8)
      { initialEngineState with lastRepCounter := some 5 } 5 rfl (by decide)).2.2.2.1
      (by decide)).1⟩

/-!
C1.  Auto-stop timing in unlimited mode.  checkAutoStop arms the timer
on the first danger-zone sample, computes progress as
min(elapsed/5000, 1), and invokes the callback on EVERY monitor sample
processed while the interval persists once elapsed ≥ 5000 ms — there
is no fired-once latch, so the callback is invoked at least once, not
exactly once, per continuous danger-zone interval.
-/

/-- When the danger condition holds, checkAutoStop takes its
danger-zone branch: the timer is armed (or kept) and progress and the
callback follow the elapsed time. -/
theorem checkAutoStop_danger (now : ℕ) (sample : MonitorSample) (r : RepRanges)
    (start : Option ℕ) (hd : eligibleDanger r sample = true) :
    checkAutoStop now sample r start =
      ⟨some (start.getD now),
       min ((((now : ℤ) - ((start.getD now : ℕ) : ℤ) : ℤ) : ℚ) / 5000) 1,
       decide ((5000 : ℤ) ≤ (now : ℤ) - ((start.getD now : ℕ) : ℤ))⟩ := by
  unfold eligibleDanger at hd
  simp only [Bool.and_eq_true, Bool.or_eq_true, Bool.not_eq_true'] at hd
  obtain ⟨h1, h2, h3⟩ := hd
  unfold checkAutoStop
  simp only [h1, Bool.false_eq_true, if_false]
  have h2' : (!decide (50 < orZero r.maxRepPosA - orZero r.minRepPosA) &&
      !decide (50 < orZero r.maxRepPosB - orZero r.minRepPosB)) = false := by
    rw [← Bool.not_or]
    rcases h2 with h | h <;> simp [h]
  have h3' : ((decide (50 < orZero r.maxRepPosA - orZero r.minRepPosA) && r.minRepPosA.isSome &&
       decide ((sample.posA : ℚ) ≤ orZero r.minRepPosA +
         (orZero r.maxRepPosA - orZero r.minRepPosA) * (5 / 100))) ||
    (decide (50 < orZero r.maxRepPosB - orZero r.minRepPosB) && r.minRepPosB.isSome &&
       decide ((sample.posB : ℚ) ≤ orZero r.minRepPosB +
         (orZero r.maxRepPosB - orZero r.minRepPosB) * (5 / 100)))) = true := by
    rcases h3 with ⟨⟨ha, hb⟩, hc⟩ | ⟨⟨ha, hb⟩, hc⟩ <;> simp [ha, hb, hc]
  simp only [h2', h3', Bool.false_eq_true, if_false, if_true]

/-- A monitor sample in the danger zone preserves the ranges and mode,
keeps the armed instant, and reports progress and callback as a
function of the elapsed time. -/
theorem handleMonitorSample_danger (now : ℕ) (s : MonitorSample) (st : EngineState)
    (t0 : ℕ) (hJL : st.isJustLiftMode = true)
    (hst : st.autoStopStartTime.getD now = t0)
    (hd : eligibleDanger st.repRanges s = true) :
    (handleMonitorSample now s st).1.repRanges = st.repRanges ∧
    (handleMonitorSample now s st).1.isJustLiftMode = true ∧
    (handleMonitorSample now s st).1.autoStopStartTime = some t0 ∧
    (handleMonitorSample now s st).1.autoStopProgress =
      min ((((now : ℤ) - (t0 : ℤ) : ℤ) : ℚ) / 5000) 1 ∧
    (handleMonitorSample now s st).2 = decide ((5000 : ℤ) ≤ (now : ℤ) - (t0 : ℤ)) := by
  by_cases hm : st.maxPos < max s.posA s.posB <;>
    simp [handleMonitorSample, hm, hJL, checkAutoStop_danger _ _ _ _ hd, hst]

/-- Run form of the previous lemma: with the timer armed at t0, a
sequence of danger-zone samples reports, for each sample, progress
min(elapsed/5000, 1) and a callback invocation exactly when
elapsed ≥ 5000 ms. -/
theorem engineMonitorRun_danger :
    ∀ (events : List (ℕ × MonitorSample)) (st : EngineState) (t0 : ℕ),
    st.isJustLiftMode = true → st.autoStopStartTime = some t0 →
    (∀ ts ∈ events, eligibleDanger st.repRanges ts.2 = true) →
    (engineMonitorRun st events).2 = events.map (fun ts =>
      (min ((((ts.1 : ℤ) - (t0 : ℤ) : ℤ) : ℚ) / 5000) 1,
       decide ((5000 : ℤ) ≤ (ts.1 : ℤ) - (t0 : ℤ))))
  | [], st, t0, _, _, _ => rfl
  | (t, s) :: rest, st, t0, hJL, hst, hd => by
    have hst' : st.autoStopStartTime.getD t = t0 := by rw [hst]; rfl
    obtain ⟨hr, hj, ha, hp, hf⟩ :=
      handleMonitorSample_danger t s st t0 hJL hst' (hd (t, s) (by simp))
    have ih := engineMonitorRun_danger rest (handleMonitorSample t s st).1 t0 hj ha
      (fun ts hts => by rw [hr]; exact hd ts (by simp [hts]))
    simp only [engineMonitorRun, List.map_cons]
    rw [ih, hp, hf]

/-- An unarmed engine fed a continuous danger-zone interval arms the
timer at the first sample's instant t0 and then follows the elapsed
time from t0. -/
theorem engineMonitorRun_danger_from_none (st : EngineState) (t0 : ℕ)
    (s0 : MonitorSample) (rest : List (ℕ × MonitorSample))
    (hJL : st.isJustLiftMode = true) (h0 : st.autoStopStartTime = none)
    (hd0 : eligibleDanger st.repRanges s0 = true)
    (hrest : ∀ ts ∈ rest, eligibleDanger st.repRanges ts.2 = true) :
    (engineMonitorRun st ((t0, s0) :: rest)).2 = ((t0, s0) :: rest).map (fun ts =>
      (min ((((ts.1 : ℤ) - (t0 : ℤ) : ℤ) : ℚ) / 5000) 1,
       decide ((5000 : ℤ) ≤ (ts.1 : ℤ) - (t0 : ℤ)))) := by
  have hst' : st.autoStopStartTime.getD t0 = t0 := by rw [h0]; rfl
  obtain ⟨hr, hj, ha, hp, hf⟩ :=
    handleMonitorSample_danger t0 s0 st t0 hJL hst' hd0
  have ih := engineMonitorRun_danger rest (handleMonitorSample t0 s0 st).1 t0 hj ha
    (fun ts hts => by rw [hr]; exact hrest ts hts)
  simp only [engineMonitorRun, List.map_cons]
  rw [ih, hp, hf]

/-- The scenario ranges put position 200 in cable A's danger zone:
range 60 > 50 and 200 ≤ 200 + 60·0.05 = 203. -/
theorem eligibleDanger_scenario :
    eligibleDanger dangerRanges (mkSample 200 0) = true := by
  norm_num [eligibleDanger, dangerRanges, emptyRepRanges, jsFalsy, orZero, mkSample]

/-- C1 (amended): for every maximal continuous danger-zone interval
entered with the timer unarmed, the engine arms the timer at the
interval's first sample instant t0 and, on every sample of the
interval, sets progress to min(elapsed/5000, 1) and invokes the
auto-stop callback exactly when elapsed ≥ 5000 ms — that is, on every
sample from the moment the countdown completes until the interval
ends, not exactly once. -/
theorem autoStop_progress_and_fire (st : EngineState) (t0 : ℕ)
    (s0 : MonitorSample) (rest : List (ℕ × MonitorSample))
    (hJL : st.isJustLiftMode = true) (h0 : st.autoStopStartTime = none)
    (hd0 : eligibleDanger st.repRanges s0 = true)
    (hrest : ∀ ts ∈ rest, eligibleDanger st.repRanges ts.2 = true) :
    (engineMonitorRun st ((t0, s0) :: rest)).2 = ((t0, s0) :: rest).map (fun ts =>
      (min ((((ts.1 : ℤ) - (t0 : ℤ) : ℤ) : ℚ) / 5000) 1,
       decide ((5000 : ℤ) ≤ (ts.1 : ℤ) - (t0 : ℤ)))) :=
  engineMonitorRun_danger_from_none st t0 s0 rest hJL h0 hd0 hrest

/-- Counterexample for C1 as stated: three samples at 0, 5000 and
5100 ms, all inside one continuous danger-zone interval (first
conjunct), invoke the auto-stop callback twice, not exactly once. -/
theorem autoStop_fires_twice_counterexample :
    (∀ ts ∈ [((0 : ℕ), mkSample 200 0), (5000, mkSample 200 0), (5100, mkSample 200 0)],
       eligibleDanger dangerState.repRanges ts.2 = true) ∧
    ((engineMonitorRun dangerState
        [(0, mkSample 200 0), (5000, mkSample 200 0), (5100, mkSample 200 0)]).2.map
        Prod.snd).count true = 2 := by
  constructor
  · intro ts hts
    simp only [List.mem_cons, List.not_mem_nil, or_false] at hts
    rcases hts with rfl | rfl | rfl <;> exact eligibleDanger_scenario
  · have h := engineMonitorRun_danger_from_none dangerState 0 (mkSample 200 0)
      [(5000, mkSample 200 0), (5100, mkSample 200 0)] rfl rfl
      eligibleDanger_scenario
      (by intro ts hts
          simp only [List.mem_cons, List.not_mem_nil, or_false] at hts
          rcases hts with rfl | rfl <;> exact eligibleDanger_scenario)
    rw [h]
    decide

/-- Witness for C1: the amended theorem applied to the concrete
three-sample interval at 0, 5000, 5100 ms. -/
theorem autoStop_progress_and_fire_witness :
    (engineMonitorRun dangerState
        [(0, mkSample 200 0), (5000, mkSample 200 0), (5100, mkSample 200 0)]).2 =
      [((0 : ℕ), mkSample 200 0), (5000, mkSample 200 0), (5100, mkSample 200 0)].map
        (fun ts =>
          (min ((((ts.1 : ℤ) - ((0 : ℕ) : ℤ) : ℤ) : ℚ) / 5000) 1,
           decide ((5000 : ℤ) ≤ (ts.1 : ℤ) - ((0 : ℕ) : ℤ)))) :=
  autoStop_progress_and_fire dangerState 0 (mkSample 200 0)
    [(5000, mkSample 200 0), (5100, mkSample 200 0)] rfl rfl
    eligibleDanger_scenario
    (by intro ts hts
        simp only [List.mem_cons, List.not_mem_nil, or_false] at hts
        rcases hts with rfl | rfl <;> exact eligibleDanger_scenario)

end Verano
